import Mathlib

/-!
Verification of the ai-calling media-bridge server.

The repository contains several iterations of the same Fastify/WebSocket
server that bridges a Twilio media stream to the OpenAI realtime API:
three iterations concatenated in `src/index.js` (referred to below as
`IterA`, `IterB`, `IterC`, in file order) and one further iteration in an
unnamed source file (referred to as `IterD`).

Strings are embedded as `List Char`; JavaScript string operations
(`trim`, `includes`, `replace`, the regexes `[.!?](\s|$)` and `[.!?]$`)
are translated below.  WebSocket ready states are the enum `RS`; the
JavaScript Map holding call prompts is an association list.  Each message
handler becomes a pure function from session state and event to the new
session state together with the list of emitted effects (socket sends and
scheduled timers).  `console.log` calls are not modelled.
-/

namespace AiCalling

/-- The whitespace class of the JavaScript regex `\s` restricted to the
ASCII characters that occur in this system. -/
def isSpaceChar (c : Char) : Bool :=
  c == ' ' || c == '\t' || c == '\n' || c == '\r' || c == '\x0b' || c == '\x0c'

/-- The character class `[.!?]` of the sentence-boundary regexes. -/
def isPunctChar (c : Char) : Bool :=
  c == '.' || c == '!' || c == '?'

/-- JavaScript `String.prototype.trim`: drop whitespace from both ends. -/
def jsTrim (l : List Char) : List Char :=
  ((l.dropWhile isSpaceChar).reverse.dropWhile isSpaceChar).reverse

/-- JavaScript `String.prototype.includes`: substring test. -/
def containsSub (needle : List Char) : List Char → Bool
  | [] => needle.isEmpty
  | c :: t => needle.isPrefixOf (c :: t) || containsSub needle t

/-- JavaScript `String.prototype.replace` with a string pattern: replace
the first occurrence of `needle` by `repl`. -/
def replaceFirst (needle repl : List Char) : List Char → List Char
  | [] => []
  | c :: t =>
    if needle.isPrefixOf (c :: t) then repl ++ (c :: t).drop needle.length
    else c :: replaceFirst needle repl t

/-- The test `completeMessage.match(/[.!?](\s|$)/)`: some terminal
punctuation character is followed by whitespace or ends the string. -/
def containsTerminalBoundary : List Char → Bool
  | [] => false
  | c :: rest =>
    (isPunctChar c && (match rest with
      | [] => true
      | c2 :: _ => isSpaceChar c2)) || containsTerminalBoundary rest

/-- The test `message.match(/[.!?]$/)`: the string ends with terminal
punctuation. -/
def endsWithPunct (l : List Char) : Bool :=
  match l.getLast? with
  | some c => isPunctChar c
  | none => false

/-- JavaScript truthiness of a nullable string: present and nonempty. -/
def strTruthy : Option (List Char) → Bool
  | some s => !s.isEmpty
  | none => false

/-- The in-band end-of-call marker emitted by the assistant. -/
def endCallMarker : List Char := "[END_CALL]".data

/-- The prompt registry (`activeCallPrompts`) and the stream-to-call map
(`streamToCallSid`) are JavaScript `Map`s from strings to strings,
modelled as association lists with unique keys. -/
abbrev Registry := List (List Char × List Char)

/-- `Map.prototype.get`. -/
def mapGet : Registry → List Char → Option (List Char)
  | [], _ => none
  | (k', v') :: t, k => if k' = k then some v' else mapGet t k

/-- `Map.prototype.set`: overwrite an existing binding or append. -/
def mapSet : Registry → List Char → List Char → Registry
  | [], k, v => [(k, v)]
  | (k', v') :: t, k, v =>
    if k' = k then (k, v) :: t else (k', v') :: mapSet t k v

/-- `Map.prototype.delete` (keys are unique, so filtering is faithful). -/
def mapDelete (r : Registry) (k : List Char) : Registry :=
  r.filter (fun p => decide (p.1 ≠ k))

/-- The prompt-claim operation as every iteration implements it: the
session start handler reads the stored prompt with `activeCallPrompts.get`.
It is a pure lookup; nothing is marked consumed. -/
def claimPrompt (r : Registry) (k : List Char) : Option (List Char) :=
  mapGet r k

/-- Speaker of a committed conversation turn. -/
inductive Role where
  | user
  | assistant
deriving DecidableEq

/-- One committed entry of the `conversation` array. -/
structure Entry where
  role : Role
  content : List Char
deriving DecidableEq

/-- A conversation entry is well-formed when its content is already
trimmed and nonempty (hence contains a non-whitespace character). -/
def entryOk (m : Entry) : Bool :=
  decide (jsTrim m.content = m.content) && !m.content.isEmpty

/-- WebSocket ready states. -/
inductive RS where
  | connecting
  | opened
  | closing
  | closed
deriving DecidableEq

/-- Message kinds received from the OpenAI realtime socket, carrying the
fields the handlers read.  Optional fields model possibly-absent JSON
fields (absent or empty means falsy). -/
inductive OAEvent where
  | responseCreated (rid : List Char)
  | outputItemAdded (itemId : Option (List Char))
  | speechStarted
  | speechStopped
  | audioDelta (delta : Option (List Char))
  | transcriptDelta (delta : Option (List Char))
  | responseDone
  | transcriptionCompleted (transcript : Option (List Char))
  | errorEvt
deriving DecidableEq

/-- Message kinds received on the Twilio media-stream socket.  The start
event optionally carries `customParameters.CallSid`. -/
inductive TwEvent where
  | start (streamSid : List Char) (callSidParam : Option (List Char))
  | media (payload : List Char)
  | stop
deriving DecidableEq

/-- Messages sent to the OpenAI socket. -/
inductive OAOut where
  | sessionUpdate (instructions : List Char)
  | appendAudio (payload : List Char)
  | cancel (responseId : Option (List Char))
  | truncate (itemId : Option (List Char))
deriving DecidableEq

/-- Messages sent to the Twilio socket.  The wire contract also has a
`clear` message kind; no handler in this codebase ever produces it. -/
inductive TwOut where
  | media (streamSid payload : List Char)
  | clear (streamSid : List Char)
deriving DecidableEq

/-- Effects a handler can perform besides updating session state. -/
inductive Effect where
  | sendOA (m : OAOut)
  | sendTw (m : TwOut)
  | scheduleClose (delayMs : Nat)
  | scheduleRetry (delayMs : Nat) (retryCount : Nat)
deriving DecidableEq

/-- Recognizer for an outbound `clear` message to the telephony side. -/
def isClearOut : Effect → Bool
  | Effect.sendTw (TwOut.clear _) => true
  | _ => false

/-- Recognizer for an outbound `media` frame to the telephony side. -/
def isMediaOut : Effect → Bool
  | Effect.sendTw (TwOut.media _ _) => true
  | _ => false

/-- Recognizer for a `session.update` send to the OpenAI side. -/
def isSessionUpdate : Effect → Bool
  | Effect.sendOA (OAOut.sessionUpdate _) => true
  | _ => false

/-- Recognizer for a scheduled delayed close (the grace timer). -/
def isScheduleClose : Effect → Bool
  | Effect.scheduleClose _ => true
  | _ => false

/-- The instruction lists carried by `session.update` sends in a list of
effects. -/
def sessionUpdateInstrs : List Effect → List (List Char)
  | [] => []
  | Effect.sendOA (OAOut.sessionUpdate i) :: t => i :: sessionUpdateInstrs t
  | _ :: t => sessionUpdateInstrs t

/-!
`IterA`: the first iteration in `src/index.js` (the `/media-stream`
handler at lines 124-310).  Per-connection state: `streamSid`, the
OpenAI socket (absent until the start event), `conversation`,
`assistantMessageBuffer`, plus the process-wide `activeCallPrompts` map.
-/

namespace IterA

/-- Per-connection closure state of the first iteration, together with
the ready states of the two sockets and the process-wide prompt map. -/
structure SessState where
  streamSid : Option (List Char)
  openAiReady : Option RS
  twilioReady : RS
  conversation : List Entry
  assistantMessageBuffer : List Char
  registry : Registry
deriving DecidableEq

/-- `handleOpenAIMessage` of the first iteration (only the switch cases
that exist there: `input_audio_buffer.speech_started`,
`response.audio.delta`, `response.audio_transcript.delta`,
`conversation.item.input_audio_transcription.completed`). -/
def handleOpenAI (e : OAEvent) (s : SessState) : SessState × List Effect :=
  match e with
  | OAEvent.speechStarted =>
    if s.openAiReady = some RS.opened then
      (s, [Effect.sendOA (OAOut.cancel none)])
    else (s, [])
  | OAEvent.audioDelta d =>
    if strTruthy d && strTruthy s.streamSid then
      (s, [Effect.sendTw (TwOut.media (s.streamSid.getD []) (d.getD []))])
    else (s, [])
  | OAEvent.transcriptDelta d =>
    match d with
    | some dd =>
      if dd.isEmpty then (s, [])
      else
        let buf := s.assistantMessageBuffer ++ dd
        if containsSub endCallMarker buf then
          ({ s with assistantMessageBuffer := buf,
                    conversation := s.conversation ++
                      [⟨Role.assistant, jsTrim (replaceFirst endCallMarker [] buf)⟩] },
           [Effect.scheduleClose 2000])
        else ({ s with assistantMessageBuffer := buf }, [])
    | none => (s, [])
  | OAEvent.transcriptionCompleted t =>
    match t with
    | some tt =>
      if tt.isEmpty then (s, [])
      else ({ s with conversation := s.conversation ++ [⟨Role.user, jsTrim tt⟩] }, [])
    | none => (s, [])
  | _ => (s, [])

/-- The Twilio message handler of the first iteration. -/
def handleTwilio (e : TwEvent) (s : SessState) : SessState × List Effect :=
  match e with
  | TwEvent.start sid _ =>
    ({ s with streamSid := some sid, openAiReady := some RS.connecting }, [])
  | TwEvent.media p =>
    if s.openAiReady = some RS.opened then
      (s, [Effect.sendOA (OAOut.appendAudio p)])
    else (s, [])
  | TwEvent.stop =>
    if s.openAiReady = some RS.opened then
      ({ s with openAiReady := some RS.closed }, [])
    else (s, [])

/-- The Twilio message handler including the surrounding try/catch over
`JSON.parse`: a message that fails to parse (`none`) is dropped. -/
def handleTwilioRaw (r : Option TwEvent) (s : SessState) : SessState × List Effect :=
  match r with
  | none => (s, [])
  | some e => handleTwilio e s

/-- The OpenAI message handler including its try/catch over `JSON.parse`. -/
def handleOpenAIRaw (r : Option OAEvent) (s : SessState) : SessState × List Effect :=
  match r with
  | none => (s, [])
  | some e => handleOpenAI e s

/-- The close handler of the Twilio socket: close the OpenAI socket
if it is still open, then delete the stored prompt.  The returned Boolean
records whether `openAiWs.close()` was invoked. -/
def twilioClose (s : SessState) : SessState × Bool :=
  let s1 :=
    if s.openAiReady = some RS.opened then { s with openAiReady := some RS.closed } else s
  let s2 :=
    match s.streamSid with
    | some sid => if sid.isEmpty then s1 else { s1 with registry := mapDelete s1.registry sid }
    | none => s1
  (s2, decide (s.openAiReady = some RS.opened))

/-- The close handler of the OpenAI socket in the first iteration: it only
logs and changes nothing. -/
def openAiClose (s : SessState) : SessState := s

/-- The `setTimeout` callback scheduled on end-of-call detection: close
each connection whose ready state is `OPEN`. -/
def endCallTimeout (s : SessState) : SessState :=
  let s1 := if s.twilioReady = RS.opened then { s with twilioReady := RS.closed } else s
  if s1.openAiReady = some RS.opened then { s1 with openAiReady := some RS.closed } else s1

/-- Sequential processing of a list of OpenAI events. -/
def run : SessState → List OAEvent → SessState × List Effect
  | s, [] => (s, [])
  | s, e :: es =>
    let r := handleOpenAI e s
    let r2 := run r.1 es
    (r2.1, r.2 ++ r2.2)

end IterA

/-!
`IterB`: the second iteration in `src/index.js` (lines 446-641), whose
`initializeOpenAI(retryCount = 0)` retries the OpenAI connection on the
`error` event, on a WebSocket error, and on an abnormal close, each time
after a fixed 1000 ms delay and only while `retryCount < 3`.  Its open
handler sends the single `session.update` of that connection.
-/

namespace IterB

/-- Retry decision shared by the `error`-message case and the WebSocket
error handler: retry (after 1000 ms, with the count incremented) while
fewer than 3 retries have been used; otherwise do nothing. -/
def onError (retryCount : Nat) : List Effect :=
  if retryCount < 3 then [Effect.scheduleRetry 1000 (retryCount + 1)] else []

/-- The close handler of the OpenAI socket: retry only on a non-normal close
code (`code !== 1000`) and while fewer than 3 retries have been used. -/
def onClose (code : Nat) (retryCount : Nat) : List Effect :=
  if code ≠ 1000 ∧ retryCount < 3 then [Effect.scheduleRetry 1000 (retryCount + 1)] else []

/-- The open handler of a single connection attempt:
it sends exactly the one `session.update` message. -/
def openEffects (instructions : List Char) : List Effect :=
  [Effect.sendOA (OAOut.sessionUpdate instructions)]

/-- Number of connection attempts made when successive attempts fail
with the given close codes: each failure consumes one code, and a
further attempt follows exactly when the close handler schedules a
retry. -/
def attemptsOnFailures : Nat → List Nat → Nat
  | _, [] => 0
  | rc, code :: rest =>
    1 + (if onClose code rc = [] then 0 else attemptsOnFailures (rc + 1) rest)

end IterB

/-!
`IterC`: the third iteration in `src/index.js` (lines 782-1007).  It
tracks `currentResponseId`/`currentMessageId`, an `isSpeaking` flag that
gates outbound audio, a sentence-boundary transcript buffer, and the
process-wide `streamToCallSid` map used to look up the stored prompt by
call SID.
-/

namespace IterC

/-- Per-connection closure state of the third iteration plus the two
process-wide maps. -/
structure SessState where
  streamSid : Option (List Char)
  openAiReady : Option RS
  twilioReady : RS
  conversation : List Entry
  currentResponseId : Option (List Char)
  currentMessageId : Option (List Char)
  completeMessage : List Char
  isSpeaking : Bool
  registry : Registry
  streamToCallSid : Registry
deriving DecidableEq

/-- `createSystemMessage` of the third iteration:
the custom prompt when truthy, else the fixed fallback text. -/
def createSystemMessage (customPrompt : Option (List Char)) : List Char :=
  match customPrompt with
  | some p => if p.isEmpty then "No specific task provided.".data else p
  | none => "No specific task provided.".data

/-- The open handler of the OpenAI socket: look up the call SID recorded for
this stream, read the stored prompt for that call SID, compose the
instructions and send the `session.update`. -/
def adapterOpen (s : SessState) : SessState × List Effect :=
  let callSid :=
    match s.streamSid with
    | some sid => mapGet s.streamToCallSid sid
    | none => none
  let customPrompt :=
    if strTruthy callSid then mapGet s.registry (callSid.getD []) else none
  ({ s with openAiReady := some RS.opened },
   [Effect.sendOA (OAOut.sessionUpdate (createSystemMessage customPrompt))])

/-- The OpenAI message handler of the third iteration. -/
def handleOpenAI (e : OAEvent) (s : SessState) : SessState × List Effect :=
  match e with
  | OAEvent.responseCreated rid =>
    ({ s with currentResponseId := some rid }, [])
  | OAEvent.outputItemAdded itemId =>
    match itemId with
    | some mid => ({ s with currentMessageId := some mid }, [])
    | none => (s, [])
  | OAEvent.speechStarted =>
    let s1 := { s with isSpeaking := true }
    if s.openAiReady = some RS.opened ∧ strTruthy s.currentResponseId = true then
      (s1, Effect.sendOA (OAOut.cancel s.currentResponseId) ::
        (if strTruthy s.currentMessageId then
          [Effect.sendOA (OAOut.truncate s.currentMessageId)] else []))
    else (s1, [])
  | OAEvent.speechStopped =>
    ({ s with isSpeaking := false }, [])
  | OAEvent.audioDelta d =>
    if strTruthy d && strTruthy s.streamSid && !s.isSpeaking then
      (s, [Effect.sendTw (TwOut.media (s.streamSid.getD []) (d.getD []))])
    else (s, [])
  | OAEvent.transcriptDelta d =>
    match d with
    | some dd =>
      if dd.isEmpty then (s, [])
      else
        let buf := s.completeMessage ++ dd
        let conv :=
          if containsTerminalBoundary buf then
            s.conversation ++ [⟨Role.assistant, jsTrim buf⟩]
          else s.conversation
        let buf2 := if containsTerminalBoundary buf then [] else buf
        let effs :=
          if containsSub endCallMarker buf2 then [Effect.scheduleClose 3000] else []
        ({ s with conversation := conv, completeMessage := buf2 }, effs)
    | none => (s, [])
  | OAEvent.transcriptionCompleted t =>
    match t with
    | some tt =>
      if tt.isEmpty then (s, [])
      else
        let userMessage := jsTrim tt
        if userMessage.isEmpty then (s, [])
        else ({ s with conversation := s.conversation ++ [⟨Role.user, userMessage⟩] }, [])
    | none => (s, [])
  | _ => (s, [])

/-- The Twilio message handler of the third iteration; the start event
records `customParameters.CallSid` in `streamToCallSid` when present. -/
def handleTwilio (e : TwEvent) (s : SessState) : SessState × List Effect :=
  match e with
  | TwEvent.start sid cp =>
    let s1 := { s with streamSid := some sid, openAiReady := some RS.connecting }
    match cp with
    | some callSid =>
      if callSid.isEmpty then (s1, [])
      else ({ s1 with streamToCallSid := mapSet s1.streamToCallSid sid callSid }, [])
    | none => (s1, [])
  | TwEvent.media p =>
    if s.openAiReady = some RS.opened then
      (s, [Effect.sendOA (OAOut.appendAudio p)])
    else (s, [])
  | TwEvent.stop =>
    if s.openAiReady = some RS.opened then
      ({ s with openAiReady := some RS.closed }, [])
    else (s, [])

/-- Sequential processing of a list of OpenAI events. -/
def run : SessState → List OAEvent → SessState × List Effect
  | s, [] => (s, [])
  | s, e :: es =>
    let r := handleOpenAI e s
    let r2 := run r.1 es
    (r2.1, r.2 ++ r2.2)

end IterC

/-!
`IterD`: the iteration in the unnamed source file.  It commits assistant
turns through `logConversation` on a sentence boundary, tracks
`currentResponseId`/`currentMessageId` (cleared on `response.done`), and
detects the end-of-call marker in the transcript buffer.
-/

namespace IterD

/-- Per-connection closure state of the unnamed-file iteration plus the
process-wide prompt map. -/
structure SessState where
  streamSid : Option (List Char)
  openAiReady : Option RS
  twilioReady : RS
  conversation : List Entry
  currentResponseId : Option (List Char)
  currentMessageId : Option (List Char)
  completeMessage : List Char
  registry : Registry
deriving DecidableEq

/-- `logConversation(role, message)`: commit the trimmed message as a
turn only when it is nonempty after trimming and ends with terminal
punctuation. -/
def logConversation (s : SessState) (role : Role) (msg : List Char) : SessState :=
  if !(jsTrim msg).isEmpty && endsWithPunct msg then
    { s with conversation := s.conversation ++ [⟨role, jsTrim msg⟩] }
  else s

/-- The OpenAI message handler of the unnamed-file iteration (it has no
`speech_stopped` case). -/
def handleOpenAI (e : OAEvent) (s : SessState) : SessState × List Effect :=
  match e with
  | OAEvent.responseCreated rid =>
    ({ s with currentResponseId := some rid }, [])
  | OAEvent.outputItemAdded itemId =>
    match itemId with
    | some mid => ({ s with currentMessageId := some mid }, [])
    | none => (s, [])
  | OAEvent.speechStarted =>
    if s.openAiReady = some RS.opened then
      (s, (if strTruthy s.currentResponseId then
            [Effect.sendOA (OAOut.cancel s.currentResponseId)] else []) ++
          (if strTruthy s.currentMessageId then
            [Effect.sendOA (OAOut.truncate s.currentMessageId)] else []))
    else (s, [])
  | OAEvent.audioDelta d =>
    if strTruthy d && strTruthy s.streamSid then
      (s, [Effect.sendTw (TwOut.media (s.streamSid.getD []) (d.getD []))])
    else (s, [])
  | OAEvent.transcriptDelta d =>
    match d with
    | some dd =>
      if dd.isEmpty then (s, [])
      else
        let buf := s.completeMessage ++ dd
        let s1 :=
          if containsTerminalBoundary buf then
            { logConversation s Role.assistant buf with completeMessage := [] }
          else { s with completeMessage := buf }
        if containsSub endCallMarker s1.completeMessage then
          (s1, [Effect.scheduleClose 3000])
        else (s1, [])
    | none => (s, [])
  | OAEvent.responseDone =>
    ({ s with currentResponseId := none, currentMessageId := none }, [])
  | OAEvent.transcriptionCompleted t =>
    match t with
    | some tt =>
      if tt.isEmpty then (s, [])
      else (logConversation s Role.user (jsTrim tt), [])
    | none => (s, [])
  | _ => (s, [])

/-- The Twilio message handler of the unnamed-file iteration. -/
def handleTwilio (e : TwEvent) (s : SessState) : SessState × List Effect :=
  match e with
  | TwEvent.start sid _ =>
    ({ s with streamSid := some sid, openAiReady := some RS.connecting }, [])
  | TwEvent.media p =>
    if s.openAiReady = some RS.opened then
      (s, [Effect.sendOA (OAOut.appendAudio p)])
    else (s, [])
  | TwEvent.stop =>
    if s.openAiReady = some RS.opened then
      ({ s with openAiReady := some RS.closed }, [])
    else (s, [])

/-- The Twilio message handler including its try/catch over `JSON.parse`. -/
def handleTwilioRaw (r : Option TwEvent) (s : SessState) : SessState × List Effect :=
  match r with
  | none => (s, [])
  | some e => handleTwilio e s

/-- The OpenAI message handler including its try/catch over `JSON.parse`. -/
def handleOpenAIRaw (r : Option OAEvent) (s : SessState) : SessState × List Effect :=
  match r with
  | none => (s, [])
  | some e => handleOpenAI e s

/-- The close handler of the OpenAI socket in the unnamed-file iteration: it
only logs the final conversation and changes nothing; in particular it
does not close the telephony socket. -/
def openAiClose (s : SessState) : SessState := s

/-- The close handler of the Twilio connection in the unnamed-file iteration:
close the OpenAI socket if it is still open and delete the stored
prompt. -/
def twilioClose (s : SessState) : SessState :=
  let s1 :=
    if s.openAiReady = some RS.opened then { s with openAiReady := some RS.closed } else s
  match s.streamSid with
  | some sid => if sid.isEmpty then s1 else { s1 with registry := mapDelete s1.registry sid }
  | none => s1

/-- The end-of-call `setTimeout` callback: `connection.socket.close()`
is called unconditionally (guarded only by the socket object existing),
the OpenAI socket only if still open. -/
def endCallTimeout (s : SessState) : SessState :=
  let s1 := { s with twilioReady := RS.closed }
  if s1.openAiReady = some RS.opened then { s1 with openAiReady := some RS.closed } else s1

/-- Sequential processing of a list of OpenAI events. -/
def run : SessState → List OAEvent → SessState × List Effect
  | s, [] => (s, [])
  | s, e :: es =>
    let r := handleOpenAI e s
    let r2 := run r.1 es
    (r2.1, r.2 ++ r2.2)

end IterD

/-!
Concrete session states and traces used by the per-claim theorems.
-/

/-- An active `IterC` session with stream id `S1`, an open adapter
socket, and no response yet. -/
def c1s0 : IterC.SessState :=
  { streamSid := some ("S1".data), openAiReady := some RS.opened,
    twilioReady := RS.opened, conversation := [], currentResponseId := none,
    currentMessageId := none, completeMessage := [], isSpeaking := false,
    registry := [], streamToCallSid := [] }

/-- The `C1` interruption trace up to and including the speech-started
event: a response `R1` is created, then the caller starts speaking. -/
def c1mid : IterC.SessState × List Effect :=
  IterC.run c1s0 [OAEvent.responseCreated ("R1".data), OAEvent.speechStarted]

/-- Continuation of the `C1` trace: the caller stops speaking and an
audio delta arrives. -/
def c1after : IterC.SessState × List Effect :=
  IterC.run c1mid.1 [OAEvent.speechStopped, OAEvent.audioDelta (some ("AUDIO".data))]

/-- An `IterC` session in which the caller is currently speaking. -/
def c1speaking : IterC.SessState :=
  { streamSid := some ("S1".data), openAiReady := some RS.opened,
    twilioReady := RS.opened, conversation := [], currentResponseId := some ("R1".data),
    currentMessageId := none, completeMessage := [], isSpeaking := true,
    registry := [], streamToCallSid := [] }

/-- The stored prompt of the `C3` scenario. -/
def promptC3 : List Char := "Book a 3pm dentist appointment".data

/-- The `C3` scenario start state: the registry maps call id `C1` to the
prompt and no media session has started yet. -/
def c3s0 : IterC.SessState :=
  { streamSid := none, openAiReady := none, twilioReady := RS.opened,
    conversation := [], currentResponseId := none, currentMessageId := none,
    completeMessage := [], isSpeaking := false,
    registry := mapSet [] ("C1".data) promptC3, streamToCallSid := [] }

/-- State after the `C3` start event (stream `S1`, custom parameter
carrying call id `C1`). -/
def c3s1 : IterC.SessState :=
  (IterC.handleTwilio (TwEvent.start ("S1".data) (some ("C1".data))) c3s0).1

/-- The `C3` adapter-open step: session configuration is composed and
sent. -/
def c3open : IterC.SessState × List Effect := IterC.adapterOpen c3s1

/-- An `IterA` session whose adapter socket is open (used for the
telephony-side close handler). -/
def c4a : IterA.SessState :=
  { streamSid := some ("S1".data), openAiReady := some RS.opened,
    twilioReady := RS.opened, conversation := [], assistantMessageBuffer := [],
    registry := [] }

/-- An `IterD` session just after its adapter socket closed while the
telephony socket is still open (the state in which the adapter-side
close handler runs). -/
def c4d : IterD.SessState :=
  { streamSid := some ("S1".data), openAiReady := some RS.closed,
    twilioReady := RS.opened, conversation := [], currentResponseId := none,
    currentMessageId := none, completeMessage := [], registry := [] }

/-- Fresh `IterD` session for the `C5` fragment scenario. -/
def c5s0 : IterD.SessState :=
  { streamSid := some ("S1".data), openAiReady := some RS.opened,
    twilioReady := RS.opened, conversation := [], currentResponseId := none,
    currentMessageId := none, completeMessage := [], registry := [] }

/-- The `C5` scenario: the assistant transcript arrives as the three
fragments of the spec. -/
def c5run : IterD.SessState × List Effect :=
  IterD.run c5s0
    [OAEvent.transcriptDelta (some ("Thank you for your time.".data)),
     OAEvent.transcriptDelta (some (" Goodbye.".data)),
     OAEvent.transcriptDelta (some (" [END_CALL]".data))]

/-- Fresh `IterA` session for the `C6` counterexample trace. -/
def c6s0 : IterA.SessState :=
  { streamSid := some ("S1".data), openAiReady := some RS.opened,
    twilioReady := RS.opened, conversation := [], assistantMessageBuffer := [],
    registry := [] }

/-- The `C6` counterexample trace: the marker arrives, then one more
delta. -/
def c6run : IterA.SessState × List Effect :=
  IterA.run c6s0
    [OAEvent.transcriptDelta (some ("Bye [END_CALL]".data)),
     OAEvent.transcriptDelta (some ("!".data))]

/-- An `IterA` session whose adapter socket has not opened yet. -/
def c8a : IterA.SessState :=
  { streamSid := none, openAiReady := none, twilioReady := RS.opened,
    conversation := [], assistantMessageBuffer := [], registry := [] }

/-- An `IterD` session whose adapter socket has not opened yet. -/
def c8d : IterD.SessState :=
  { streamSid := none, openAiReady := none, twilioReady := RS.opened,
    conversation := [], currentResponseId := none, currentMessageId := none,
    completeMessage := [], registry := [] }

/-!
Helper lemmas about the string and map helpers.
-/

theorem isEmpty_eq_false_of_ne_nil {α : Type} {l : List α} (h : l ≠ []) :
    l.isEmpty = false := by
  cases l with
  | nil => exact absurd rfl h
  | cons a t => rfl

theorem head_dropWhile_not (p : Char → Bool) :
    ∀ (l : List Char) (c : Char), (l.dropWhile p).head? = some c → p c = false := by
  intro l
  induction l with
  | nil => intro c h; simp [List.dropWhile] at h
  | cons a t ih =>
    intro c h
    rw [List.dropWhile_cons] at h
    by_cases hpa : p a = true
    · rw [if_pos hpa] at h
      exact ih c h
    · rw [if_neg hpa] at h
      have hac : a = c := by simpa using h
      subst hac
      simpa using hpa

theorem dropWhile_eq_self_of_head (p : Char → Bool) (l : List Char)
    (h : ∀ c, l.head? = some c → p c = false) : l.dropWhile p = l := by
  cases l with
  | nil => rfl
  | cons a t =>
    have ha : p a = false := h a rfl
    rw [List.dropWhile_cons, if_neg (by simp [ha])]

theorem head_append_left {α : Type} (xs ys : List α) (h : xs ≠ []) :
    (xs ++ ys).head? = xs.head? := by
  cases xs with
  | nil => exact absurd rfl h
  | cons a t => rfl

theorem revHead_dropWhile (p : Char → Bool) :
    ∀ (m : List Char), m.dropWhile p ≠ [] →
      (m.dropWhile p).reverse.head? = m.reverse.head? := by
  intro m
  induction m with
  | nil => intro h; exact absurd rfl h
  | cons a t ih =>
    intro h
    by_cases hpa : p a = true
    · rw [List.dropWhile_cons, if_pos hpa] at h ⊢
      have ht : t ≠ [] := by
        intro ht
        subst ht
        exact h rfl
      rw [ih h, List.reverse_cons, head_append_left _ _ (by simpa using ht)]
    · rw [List.dropWhile_cons, if_neg hpa]

theorem mem_dropWhile_of (p : Char → Bool) {c : Char} :
    ∀ {l : List Char}, c ∈ l → p c = false → c ∈ l.dropWhile p := by
  intro l
  induction l with
  | nil => intro hc _; exact absurd hc (by simp)
  | cons a t ih =>
    intro hc hp
    by_cases hpa : p a = true
    · rw [List.dropWhile_cons, if_pos hpa]
      rcases List.mem_cons.mp hc with hca | hct
      · subst hca; rw [hp] at hpa; exact absurd hpa (by simp)
      · exact ih hct hp
    · rw [List.dropWhile_cons, if_neg hpa]
      exact hc

theorem jsTrim_revHead (l : List Char) (c : Char)
    (h : (jsTrim l).reverse.head? = some c) : isSpaceChar c = false := by
  unfold jsTrim at h
  rw [List.reverse_reverse] at h
  exact head_dropWhile_not _ _ _ h

theorem jsTrim_head (l : List Char) (c : Char)
    (h : (jsTrim l).head? = some c) : isSpaceChar c = false := by
  unfold jsTrim at h
  by_cases hB : (l.dropWhile isSpaceChar).reverse.dropWhile isSpaceChar = []
  · rw [hB] at h
    simp at h
  · rw [revHead_dropWhile _ _ hB, List.reverse_reverse] at h
    exact head_dropWhile_not _ _ _ h

theorem jsTrim_idem (l : List Char) : jsTrim (jsTrim l) = jsTrim l := by
  have h1 : (jsTrim l).dropWhile isSpaceChar = jsTrim l :=
    dropWhile_eq_self_of_head _ _ (fun c hc => jsTrim_head l c hc)
  have h2 : (jsTrim l).reverse.dropWhile isSpaceChar = (jsTrim l).reverse :=
    dropWhile_eq_self_of_head _ _ (fun c hc => jsTrim_revHead l c hc)
  show (((jsTrim l).dropWhile isSpaceChar).reverse.dropWhile isSpaceChar).reverse = jsTrim l
  rw [h1, h2, List.reverse_reverse]

theorem jsTrim_ne_nil {c : Char} {l : List Char} (hc : c ∈ l)
    (hp : isSpaceChar c = false) : jsTrim l ≠ [] := by
  have h1 : c ∈ l.dropWhile isSpaceChar := mem_dropWhile_of _ hc hp
  have h2 : c ∈ (l.dropWhile isSpaceChar).reverse := List.mem_reverse.mpr h1
  have h3 : c ∈ (l.dropWhile isSpaceChar).reverse.dropWhile isSpaceChar :=
    mem_dropWhile_of _ h2 hp
  intro h
  unfold jsTrim at h
  exact List.ne_nil_of_mem h3 (List.reverse_eq_nil_iff.mp h)

theorem boundary_punct :
    ∀ {l : List Char}, containsTerminalBoundary l = true →
      ∃ c, c ∈ l ∧ isPunctChar c = true := by
  intro l
  induction l with
  | nil => intro h; simp [containsTerminalBoundary] at h
  | cons a t ih =>
    intro h
    by_cases hpa : isPunctChar a = true
    · exact ⟨a, List.mem_cons_self a t, hpa⟩
    · have h2 : containsTerminalBoundary t = true := by
        cases t with
        | nil => simp [containsTerminalBoundary, hpa] at h
        | cons b t2 => simpa [containsTerminalBoundary, hpa] using h
      obtain ⟨c, hc, hpc⟩ := ih h2
      exact ⟨c, List.mem_cons_of_mem _ hc, hpc⟩

theorem punct_not_space {c : Char} (h : isPunctChar c = true) :
    isSpaceChar c = false := by
  rw [isPunctChar] at h
  rcases (Bool.or_eq_true _ _).mp h with h1 | h2
  · rcases (Bool.or_eq_true _ _).mp h1 with ha | hb
    · rw [show c = '.' from by simpa using ha]
      rfl
    · rw [show c = '!' from by simpa using hb]
      rfl
  · rw [show c = '?' from by simpa using h2]
    rfl

theorem jsTrim_ne_nil_of_boundary {l : List Char}
    (h : containsTerminalBoundary l = true) : jsTrim l ≠ [] := by
  obtain ⟨c, hc, hpc⟩ := boundary_punct h
  exact jsTrim_ne_nil hc (punct_not_space hpc)

theorem mapGet_mapSet_self (r : Registry) (k v : List Char) :
    mapGet (mapSet r k v) k = some v := by
  induction r with
  | nil => simp [mapSet, mapGet]
  | cons p t ih =>
    obtain ⟨k', v'⟩ := p
    by_cases h : k' = k
    · subst h
      simp [mapSet, mapGet]
    · simp [mapSet, mapGet, h, ih]

theorem mapGet_mapDelete_self (r : Registry) (k : List Char) :
    mapGet (mapDelete r k) k = none := by
  induction r with
  | nil => simp [mapDelete, mapGet]
  | cons p t ih =>
    obtain ⟨k', v'⟩ := p
    by_cases h : k' = k
    · subst h
      simpa [mapDelete, List.filter_cons] using ih
    · simpa [mapDelete, List.filter_cons, h, mapGet] using ih

/-!
Per-claim theorems.
-/

/-- C2 counterexample: with the prompt for call id `C1` stored, the
first `claim` returns the prompt, and — because `claim` is the pure
`Map.get` lookup, with no consumed mark and no deletion — the second
`claim` on the same registry returns the very same prompt, not none.
This falsifies the claim that every claim after the first returns none. -/
theorem C2_counterexample :
    claimPrompt (mapSet [] ("C1".data) ("p1".data)) ("C1".data) = some ("p1".data)
    ∧ ¬ (claimPrompt (mapSet [] ("C1".data) ("p1".data)) ("C1".data) = none) :=
  ⟨by decide, by decide⟩

/-- C2 amended: `claim(callId)` is a pure lookup that never marks the
prompt consumed — every claim on an id with a stored prompt returns that
prompt (so repeated claims return it again, unchanged); a claim on an
unknown id returns none rather than an error; the entry disappears only
when the close handler deletes it, after which claim returns none. -/
theorem C2_amended : ∀ (r : Registry) (k v k2 : List Char),
    claimPrompt (mapSet r k v) k = some v
    ∧ claimPrompt ([] : Registry) k2 = none
    ∧ claimPrompt (mapDelete r k) k = none :=
  fun r k v _ => ⟨mapGet_mapSet_self r k v, rfl, mapGet_mapDelete_self r k⟩

/-- C3 counterexample: after the scenario (prompt stored for call id
`C1`, media session started with stream `S1` carrying the call id, and
the adapter opened), a subsequent `claim("C1")` still returns the stored
prompt — not none as the claim requires, because the open handler reads
the prompt with `Map.get` and nothing deletes the entry. -/
theorem C3_counterexample :
    claimPrompt c3open.1.registry ("C1".data) = some promptC3
    ∧ ¬ (claimPrompt c3open.1.registry ("C1".data) = none) :=
  ⟨by decide, by decide⟩

/-- C3 amended: in the scenario, the session configuration sent on
adapter open carries instructions containing the literal prompt text
(here the instructions are exactly the prompt), but the subsequent
`claim("C1")` still returns the prompt rather than none, since the
registry entry is not consumed by the session start. -/
theorem C3_amended :
    sessionUpdateInstrs c3open.2 = [promptC3]
    ∧ (sessionUpdateInstrs c3open.2).all (fun i => containsSub promptC3 i) = true
    ∧ claimPrompt c3open.1.registry ("C1".data) = some promptC3 :=
  ⟨by decide, by decide, by decide⟩

/-- C5: the assistant transcript arriving as the fragments
`"Thank you for your time."`, `" Goodbye."`, `" [END_CALL]"` commits
exactly the two assistant turns `"Thank you for your time."` and
`"Goodbye."`, triggers the delayed-close (Closing) transition, and no
committed text contains the end-of-call marker. -/
theorem C5_scenario :
    c5run.1.conversation =
      [⟨Role.assistant, "Thank you for your time.".data⟩,
       ⟨Role.assistant, "Goodbye.".data⟩]
    ∧ Effect.scheduleClose 3000 ∈ c5run.2
    ∧ c5run.1.conversation.all (fun m => !containsSub endCallMarker m.content) = true :=
  ⟨by decide, by decide, by decide⟩

theorem attemptsOnFailures_le : ∀ (codes : List Nat) (rc : Nat),
    IterB.attemptsOnFailures rc codes ≤ 1 + (3 - rc) := by
  intro codes
  induction codes with
  | nil =>
    intro rc
    simp [IterB.attemptsOnFailures]
  | cons code rest ih =>
    intro rc
    rw [IterB.attemptsOnFailures]
    by_cases h : IterB.onClose code rc = []
    · rw [if_pos h]
      omega
    · rw [if_neg h]
      have hrc : rc < 3 := by
        by_contra hge
        apply h
        rw [IterB.onClose, if_neg]
        intro hand
        exact hge hand.2
      have := ih (rc + 1)
      omega

/-- C7 counterexample: once the three retries are used up
(`retryCount = 3`), an abnormal close (code 1006) or a further error
produces no effect at all — no retry, and in particular no fatal-failure
signal surfaced to the media bridge (the effect vocabulary of the handler
has no such signal; the code only logs).  This falsifies the part of the
claim about surfacing a fatal failure. -/
theorem C7_counterexample :
    IterB.onClose 1006 3 = [] ∧ IterB.onError 3 = [] :=
  ⟨by decide, by decide⟩

/-- C7 amended: on connection error or abnormal close (code other than
1000) the adapter retries at most 3 times (so at most 4 connection
attempts however many failures occur, and exactly 4 under repeated
abnormal closes), always with the fixed 1000 ms backoff and incremented
count; the open handler of each connection attempt sends exactly one
session-configuration message, so no connection carries duplicate
configuration sends.  After the retries are exhausted nothing further
happens — no fatal failure is surfaced. -/
theorem C7_amended : ∀ (codes : List Nat) (code rc : Nat) (instr : List Char),
    IterB.attemptsOnFailures 0 codes ≤ 4
    ∧ (IterB.onClose code rc = []
       ∨ IterB.onClose code rc = [Effect.scheduleRetry 1000 (rc + 1)])
    ∧ ((IterB.openEffects instr).filter isSessionUpdate).length = 1
    ∧ IterB.attemptsOnFailures 0 [1006, 1006, 1006, 1006, 1006] = 4 := by
  intro codes code rc instr
  refine ⟨?_, ?_, rfl, by decide⟩
  · have := attemptsOnFailures_le codes 0
    omega
  · rw [IterB.onClose]
    by_cases h : code ≠ 1000 ∧ rc < 3
    · right
      rw [if_pos h]
    · left
      rw [if_neg h]

/-- C9: an inbound message that fails to parse is dropped by the
try/catch of each message handler — on either socket, in both cited
iterations: the session state is unchanged and no effect (no send, no
close, no timer) is produced, so the session continues. -/
theorem C9_parse_failure : ∀ (sA : IterA.SessState) (sD : IterD.SessState),
    IterA.handleTwilioRaw none sA = (sA, [])
    ∧ IterA.handleOpenAIRaw none sA = (sA, [])
    ∧ IterD.handleTwilioRaw none sD = (sD, [])
    ∧ IterD.handleOpenAIRaw none sD = (sD, []) :=
  fun _ _ => ⟨rfl, rfl, rfl, rfl⟩

/-- C1 counterexample: in the trace "response `R1` created, speech
started, speech stopped, audio delta", the speech-started event arrives
while response `R1` is active (first conjunct); the next outbound media
frame after that event exists (the delta is forwarded once the speaking
flag is cleared), and no `clear` message to the telephony side occurs
anywhere in the trace — this code never emits one.  So the next outbound
frame is neither absent nor preceded by a `clear`, falsifying C1. -/
theorem C1_counterexample :
    (IterC.handleOpenAI (OAEvent.responseCreated ("R1".data)) c1s0).1.currentResponseId =
      some ("R1".data)
    ∧ c1mid.2 = [Effect.sendOA (OAOut.cancel (some ("R1".data)))]
    ∧ c1after.2 = [Effect.sendTw (TwOut.media ("S1".data) ("AUDIO".data))]
    ∧ ((c1mid.2 ++ c1after.2).all fun x => !isClearOut x) = true :=
  ⟨by decide, by decide, by decide, by decide⟩

theorem stepC_no_clear (e : OAEvent) (s : IterC.SessState) :
    ((IterC.handleOpenAI e s).2.all fun x => !isClearOut x) = true := by
  cases e with
  | responseCreated rid => rfl
  | outputItemAdded itemId => cases itemId <;> rfl
  | speechStarted =>
    rw [IterC.handleOpenAI]
    split
    · split <;> rfl
    · rfl
  | speechStopped => rfl
  | audioDelta d =>
    rw [IterC.handleOpenAI]
    split <;> rfl
  | transcriptDelta d =>
    cases d with
    | none => rfl
    | some dd =>
      rw [IterC.handleOpenAI]
      split
      · rfl
      · dsimp only
        split <;> split <;> rfl
  | responseDone => rfl
  | transcriptionCompleted t =>
    cases t with
    | none => rfl
    | some tt =>
      rw [IterC.handleOpenAI]
      split
      · rfl
      · dsimp only
        split <;> rfl
  | errorEvt => rfl

theorem stepC_speaking (e : OAEvent) (s : IterC.SessState)
    (hne : e ≠ OAEvent.speechStopped) (hs : s.isSpeaking = true) :
    (IterC.handleOpenAI e s).1.isSpeaking = true
    ∧ ((IterC.handleOpenAI e s).2.all fun x => !isMediaOut x) = true := by
  cases e with
  | responseCreated rid => exact ⟨hs, rfl⟩
  | outputItemAdded itemId => cases itemId <;> exact ⟨hs, rfl⟩
  | speechStarted =>
    rw [IterC.handleOpenAI]
    split
    · exact ⟨rfl, by split <;> rfl⟩
    · exact ⟨rfl, rfl⟩
  | speechStopped => exact absurd rfl hne
  | audioDelta d =>
    rw [IterC.handleOpenAI]
    rw [if_neg (by simp [hs])]
    exact ⟨hs, rfl⟩
  | transcriptDelta d =>
    cases d with
    | none => exact ⟨hs, rfl⟩
    | some dd =>
      rw [IterC.handleOpenAI]
      split
      · exact ⟨hs, rfl⟩
      · dsimp only
        refine ⟨hs, ?_⟩
        split <;> split <;> rfl
  | responseDone => exact ⟨hs, rfl⟩
  | transcriptionCompleted t =>
    cases t with
    | none => exact ⟨hs, rfl⟩
    | some tt =>
      rw [IterC.handleOpenAI]
      split
      · exact ⟨hs, rfl⟩
      · dsimp only
        split
        · exact ⟨hs, rfl⟩
        · exact ⟨hs, rfl⟩
  | errorEvt => exact ⟨hs, rfl⟩

theorem runC_no_clear (s : IterC.SessState) (es : List OAEvent) :
    ((IterC.run s es).2.all fun x => !isClearOut x) = true := by
  induction es generalizing s with
  | nil => rfl
  | cons e es ih =>
    rw [IterC.run]
    dsimp only
    rw [List.all_append, stepC_no_clear e s, ih ((IterC.handleOpenAI e s).1)]
    rfl

theorem runC_no_media_while_speaking (s : IterC.SessState) (es : List OAEvent)
    (hs : s.isSpeaking = true) (hn : OAEvent.speechStopped ∉ es) :
    ((IterC.run s es).2.all fun x => !isMediaOut x) = true := by
  induction es generalizing s with
  | nil => rfl
  | cons e es ih =>
    have hne : e ≠ OAEvent.speechStopped := by
      intro h
      exact hn (by rw [← h]; exact List.mem_cons_self e es)
    have hn2 : OAEvent.speechStopped ∉ es := fun h => hn (List.mem_cons_of_mem e h)
    obtain ⟨h1, h2⟩ := stepC_speaking e s hne hs
    rw [IterC.run]
    dsimp only
    rw [List.all_append, h2, ih ((IterC.handleOpenAI e s).1) h1 hn2]
    rfl

/-- C1 amended: on speech started while a response is active the code
sends `response.cancel` (and possibly `conversation.item.truncate`) and
sets the speaking flag; while the flag is set and until a speech-stopped
event arrives, no outbound media frame at all is sent to the telephony
side (forwarding of audio deltas is suppressed), and no `clear` message
is ever sent — the interruption is handled by suppression alone, and
after speech stopped forwarding resumes without any intervening clear. -/
theorem C1_amended (s : IterC.SessState) (es : List OAEvent)
    (hs : s.isSpeaking = true) (hn : OAEvent.speechStopped ∉ es) :
    ((IterC.run s es).2.all fun x => !isClearOut x) = true
    ∧ ((IterC.run s es).2.all fun x => !isMediaOut x) = true :=
  ⟨runC_no_clear s es, runC_no_media_while_speaking s es hs hn⟩

/-- C1 amended witness: the hypotheses hold at a concrete speaking
session receiving one audio delta, and the amended conclusion follows. -/
theorem C1_amended_witness :
    (c1speaking.isSpeaking = true
      ∧ OAEvent.speechStopped ∉ [OAEvent.audioDelta (some ("x".data))])
    ∧ (((IterC.run c1speaking [OAEvent.audioDelta (some ("x".data))]).2.all
          fun x => !isClearOut x) = true
       ∧ ((IterC.run c1speaking [OAEvent.audioDelta (some ("x".data))]).2.all
          fun x => !isMediaOut x) = true) :=
  ⟨⟨rfl, by decide⟩, C1_amended c1speaking _ rfl (by decide)⟩

/-- C4 counterexample: the adapter-side close handler (unnamed-file
iteration) runs with the telephony socket still open and changes
nothing: it does not close the telephony socket, falsifying the claim
that the close handler of each side closes the other. -/
theorem C4_counterexample :
    IterD.openAiClose c4d = c4d ∧ c4d.twilioReady = RS.opened :=
  ⟨rfl, rfl⟩

/-- C4 amended: teardown is one-directional.  The close handler of the
telephony socket closes the adapter socket exactly when it is still open
(the readyState guard prevents a second close of an already-closed
adapter), while the close handler of the adapter socket only logs: it leaves
the telephony socket — and the whole session state — unchanged. -/
theorem C4_amended : ∀ (sA : IterA.SessState) (sD : IterD.SessState),
    (sA.openAiReady = some RS.opened →
      (IterA.twilioClose sA).1.openAiReady = some RS.closed
      ∧ (IterA.twilioClose sA).2 = true)
    ∧ (sA.openAiReady ≠ some RS.opened →
      (IterA.twilioClose sA).1.openAiReady = sA.openAiReady
      ∧ (IterA.twilioClose sA).2 = false)
    ∧ (IterD.openAiClose sD).twilioReady = sD.twilioReady
    ∧ (IterD.openAiClose sD).openAiReady = sD.openAiReady := by
  intro sA sD
  refine ⟨?_, ?_, rfl, rfl⟩
  · intro h
    constructor
    · rw [IterA.twilioClose]
      dsimp only
      rw [if_pos h]
      cases hs : sA.streamSid with
      | none => rfl
      | some sid => dsimp only; split <;> rfl
    · rw [IterA.twilioClose]
      dsimp only
      exact decide_eq_true h
  · intro h
    constructor
    · rw [IterA.twilioClose]
      dsimp only
      rw [if_neg h]
      cases hs : sA.streamSid with
      | none => rfl
      | some sid => dsimp only; split <;> rfl
    · rw [IterA.twilioClose]
      dsimp only
      exact decide_eq_false h

/-- C4 amended witness: the telephony-close direction at a concrete
session whose adapter socket is open. -/
theorem C4_witness :
    c4a.openAiReady = some RS.opened
    ∧ ((IterA.twilioClose c4a).1.openAiReady = some RS.closed
       ∧ (IterA.twilioClose c4a).2 = true) :=
  ⟨rfl, (C4_amended c4a c4d).1 rfl⟩

/-- C6 counterexample: after the marker arrives in the delta
`"Bye [END_CALL]"`, a second delta `"!"` re-detects the marker (the
buffer is never reset), so the delayed-close transition is initiated
twice, falsifying "exactly once". -/
theorem C6_counterexample :
    c6run.2 = [Effect.scheduleClose 2000, Effect.scheduleClose 2000]
    ∧ (c6run.2.filter isScheduleClose).length = 2 :=
  ⟨by decide, by decide⟩

/-- C6 amended: whenever a transcript delta leaves the end-of-call
marker in the assistant buffer, a close of both connections after the
2-second grace delay is scheduled, and the scheduled callback closes
both connections when they are open; but the buffer still contains the
marker afterwards, so the detection re-triggers on every further
transcript delta rather than exactly once. -/
theorem C6_amended (s : IterA.SessState) (d : List Char) (hd : d ≠ [])
    (h : containsSub endCallMarker (s.assistantMessageBuffer ++ d) = true) :
    Effect.scheduleClose 2000 ∈
      (IterA.handleOpenAI (OAEvent.transcriptDelta (some d)) s).2
    ∧ containsSub endCallMarker
        ((IterA.handleOpenAI (OAEvent.transcriptDelta (some d)) s).1.assistantMessageBuffer)
        = true
    ∧ (∀ s2 : IterA.SessState, s2.twilioReady = RS.opened →
        s2.openAiReady = some RS.opened →
        (IterA.endCallTimeout s2).twilioReady = RS.closed
        ∧ (IterA.endCallTimeout s2).openAiReady = some RS.closed) := by
  have hde : d.isEmpty = false := isEmpty_eq_false_of_ne_nil hd
  refine ⟨?_, ?_, ?_⟩
  · simp [IterA.handleOpenAI, hde, h]
  · simp [IterA.handleOpenAI, hde, h]
  · intro s2 h1 h2
    constructor <;> simp [IterA.endCallTimeout, h1, h2]

/-- C6 amended witness: the hypotheses hold for the fresh session
receiving the delta `"Bye [END_CALL]."`, and the close transition is
scheduled. -/
theorem C6_witness :
    (("Bye [END_CALL].".data ≠ ([] : List Char))
      ∧ containsSub endCallMarker (c6s0.assistantMessageBuffer ++ "Bye [END_CALL].".data) = true)
    ∧ Effect.scheduleClose 2000 ∈
        (IterA.handleOpenAI (OAEvent.transcriptDelta (some ("Bye [END_CALL].".data))) c6s0).2 :=
  ⟨⟨by decide, by decide⟩,
    (C6_amended c6s0 ("Bye [END_CALL].".data) (by decide) (by decide)).1⟩

/-- C8: a telephony media frame arriving while the adapter socket is
not open (absent, still connecting, closing or closed) is dropped in
both cited iterations: the session state is unchanged and no effect is
produced — nothing is queued and nothing is sent to the adapter. -/
theorem C8_media_dropped (sA : IterA.SessState) (sD : IterD.SessState) (p : List Char)
    (hA : sA.openAiReady ≠ some RS.opened) (hD : sD.openAiReady ≠ some RS.opened) :
    IterA.handleTwilio (TwEvent.media p) sA = (sA, [])
    ∧ IterD.handleTwilio (TwEvent.media p) sD = (sD, []) := by
  constructor
  · rw [IterA.handleTwilio, if_neg hA]
  · rw [IterD.handleTwilio, if_neg hD]

/-- C8 witness: both hypotheses hold for fresh sessions whose adapter
socket has not been created yet, and the frame is dropped. -/
theorem C8_witness :
    (c8a.openAiReady ≠ some RS.opened ∧ c8d.openAiReady ≠ some RS.opened)
    ∧ (IterA.handleTwilio (TwEvent.media ("x".data)) c8a = (c8a, [])
       ∧ IterD.handleTwilio (TwEvent.media ("x".data)) c8d = (c8d, [])) :=
  ⟨⟨by decide, by decide⟩, C8_media_dropped c8a c8d ("x".data) (by decide) (by decide)⟩

theorem logConversation_conv (s : IterD.SessState) (role : Role) (msg : List Char) :
    ∃ t, (IterD.logConversation s role msg).conversation = s.conversation ++ t
      ∧ t.length ≤ 1 ∧ t.all entryOk = true := by
  rw [IterD.logConversation]
  split
  · next hcond =>
    refine ⟨[⟨role, jsTrim msg⟩], rfl, Nat.le_refl 1, ?_⟩
    obtain ⟨h1, h2⟩ := Eq.mp (Bool.and_eq_true _ _) hcond
    have h1f : (jsTrim msg).isEmpty = false := by simpa using h1
    simp [entryOk, jsTrim_idem, h1f]
  · exact ⟨[], (List.append_nil _).symm, by simp, rfl⟩

/-- C10: the conversation log is append-only across all handled events
in both cited iterations.  Every OpenAI-side event either leaves the log
unchanged or appends exactly one entry whose content is trimmed,
nonempty text (hence contains a non-whitespace character, and is a user
or assistant turn by construction); no handler removes, reorders or
mutates previously committed entries.  Telephony-side events never touch
the log. -/
theorem C10_append_only : ∀ (e : OAEvent) (tw : TwEvent)
    (sC : IterC.SessState) (sD : IterD.SessState),
    (∃ t, (IterC.handleOpenAI e sC).1.conversation = sC.conversation ++ t
      ∧ t.length ≤ 1 ∧ t.all entryOk = true)
    ∧ (∃ t, (IterD.handleOpenAI e sD).1.conversation = sD.conversation ++ t
      ∧ t.length ≤ 1 ∧ t.all entryOk = true)
    ∧ (IterC.handleTwilio tw sC).1.conversation = sC.conversation
    ∧ (IterD.handleTwilio tw sD).1.conversation = sD.conversation := by
  intro e tw sC sD
  refine ⟨?_, ?_, ?_, ?_⟩
  · cases e with
    | responseCreated rid => exact ⟨[], (List.append_nil _).symm, by simp, rfl⟩
    | outputItemAdded itemId =>
      cases itemId <;> exact ⟨[], (List.append_nil _).symm, by simp, rfl⟩
    | speechStarted =>
      rw [IterC.handleOpenAI]
      split <;> exact ⟨[], (List.append_nil _).symm, by simp, rfl⟩
    | speechStopped => exact ⟨[], (List.append_nil _).symm, by simp, rfl⟩
    | audioDelta d =>
      rw [IterC.handleOpenAI]
      split <;> exact ⟨[], (List.append_nil _).symm, by simp, rfl⟩
    | transcriptDelta d =>
      cases d with
      | none => exact ⟨[], (List.append_nil _).symm, by simp, rfl⟩
      | some dd =>
        rw [IterC.handleOpenAI]
        split
        · exact ⟨[], (List.append_nil _).symm, by simp, rfl⟩
        · dsimp only
          by_cases hb : containsTerminalBoundary (sC.completeMessage ++ dd) = true
          · refine ⟨[⟨Role.assistant, jsTrim (sC.completeMessage ++ dd)⟩], ?_, Nat.le_refl 1, ?_⟩
            · simp [hb]
            · have hne := jsTrim_ne_nil_of_boundary hb
              simp [entryOk, jsTrim_idem, isEmpty_eq_false_of_ne_nil hne]
          · refine ⟨[], ?_, by simp, rfl⟩
            simp [hb]
    | responseDone => exact ⟨[], (List.append_nil _).symm, by simp, rfl⟩
    | transcriptionCompleted t =>
      cases t with
      | none => exact ⟨[], (List.append_nil _).symm, by simp, rfl⟩
      | some tt =>
        rw [IterC.handleOpenAI]
        split
        · exact ⟨[], (List.append_nil _).symm, by simp, rfl⟩
        · dsimp only
          split
          · exact ⟨[], (List.append_nil _).symm, by simp, rfl⟩
          · next hue =>
            refine ⟨[⟨Role.user, jsTrim tt⟩], rfl, Nat.le_refl 1, ?_⟩
            have hf : (jsTrim tt).isEmpty = false := by simpa using hue
            simp [entryOk, jsTrim_idem, hf]
    | errorEvt => exact ⟨[], (List.append_nil _).symm, by simp, rfl⟩
  · cases e with
    | responseCreated rid => exact ⟨[], (List.append_nil _).symm, by simp, rfl⟩
    | outputItemAdded itemId =>
      cases itemId <;> exact ⟨[], (List.append_nil _).symm, by simp, rfl⟩
    | speechStarted =>
      rw [IterD.handleOpenAI]
      split <;> exact ⟨[], (List.append_nil _).symm, by simp, rfl⟩
    | speechStopped => exact ⟨[], (List.append_nil _).symm, by simp, rfl⟩
    | audioDelta d =>
      rw [IterD.handleOpenAI]
      split <;> exact ⟨[], (List.append_nil _).symm, by simp, rfl⟩
    | transcriptDelta d =>
      cases d with
      | none => exact ⟨[], (List.append_nil _).symm, by simp, rfl⟩
      | some dd =>
        rw [IterD.handleOpenAI]
        split
        · exact ⟨[], (List.append_nil _).symm, by simp, rfl⟩
        · dsimp only
          split <;> split
          · exact logConversation_conv sD Role.assistant (sD.completeMessage ++ dd)
          · exact logConversation_conv sD Role.assistant (sD.completeMessage ++ dd)
          · exact ⟨[], (List.append_nil _).symm, by simp, rfl⟩
          · exact ⟨[], (List.append_nil _).symm, by simp, rfl⟩
    | responseDone => exact ⟨[], (List.append_nil _).symm, by simp, rfl⟩
    | transcriptionCompleted t =>
      cases t with
      | none => exact ⟨[], (List.append_nil _).symm, by simp, rfl⟩
      | some tt =>
        rw [IterD.handleOpenAI]
        split
        · exact ⟨[], (List.append_nil _).symm, by simp, rfl⟩
        · exact logConversation_conv sD Role.user (jsTrim tt)
    | errorEvt => exact ⟨[], (List.append_nil _).symm, by simp, rfl⟩
  · cases tw with
    | start sid cp =>
      cases cp with
      | none => rfl
      | some cs =>
        rw [IterC.handleTwilio]
        dsimp only
        split <;> rfl
    | media p =>
      rw [IterC.handleTwilio]
      split <;> rfl
    | stop =>
      rw [IterC.handleTwilio]
      split <;> rfl
  · cases tw with
    | start sid cp => rfl
    | media p =>
      rw [IterD.handleTwilio]
      split <;> rfl
    | stop =>
      rw [IterD.handleTwilio]
      split <;> rfl

end AiCalling
